import Mathlib

/-!
Verification of the pipeline-orchestration and resilient-JSON-extraction
subsystem of the currentaffirs repository (src/main.py, src/dashboard.py,
src/modules/script_writer.py), via a shallow embedding: Python's `json.loads`
is modelled by a strict fuel-based JSON parser, the regex repair passes of
`_extract_json` by deterministic character scans with the same match
semantics, and the eight-stage orchestrator by an explicit state-passing
function whose external collaborators return `Except String` values and whose
external calls are recorded in an event trace.
-/

set_option maxRecDepth 4000

/- ── Python-style string helpers ──────────────────────────────────────── -/

/-- Python `str.strip()` whitespace set (space, tab, newline, CR, VT, FF). -/
def isPyWs (c : Char) : Bool :=
  c = ' ' || c = '\t' || c = '\n' || c = '\r' || c = '\x0b' || c = '\x0c'

/-- Python `str.strip()`: remove leading and trailing whitespace. -/
def pyStrip (s : String) : String :=
  String.mk (((s.data.dropWhile isPyWs).reverse.dropWhile isPyWs).reverse)

/-- Index of the first occurrence of `c` (Python `str.find`, as `Option`). -/
def firstIdx (c : Char) : List Char → Option Nat
  | [] => none
  | x :: xs =>
      if x = c then some 0
      else match firstIdx c xs with
        | some i => some (i + 1)
        | none => none

/-- Index of the last occurrence of `c` (Python `str.rfind`, as `Option`). -/
def lastIdx (c : Char) : List Char → Option Nat
  | [] => none
  | x :: xs =>
      match lastIdx c xs with
      | some i => some (i + 1)
      | none => if x = c then some 0 else none

theorem firstIdx_eq_none_of_not_mem {c : Char} :
    ∀ {l : List Char}, c ∉ l → firstIdx c l = none
  | [], _ => rfl
  | x :: xs, h => by
      have hx : x ≠ c := fun hxc => h (hxc ▸ List.mem_cons_self x xs)
      have hxs : c ∉ xs := fun hm => h (List.mem_cons_of_mem x hm)
      simp [firstIdx, hx, firstIdx_eq_none_of_not_mem hxs]

theorem lastIdx_eq_none_of_not_mem {c : Char} :
    ∀ {l : List Char}, c ∉ l → lastIdx c l = none
  | [], _ => rfl
  | x :: xs, h => by
      have hx : x ≠ c := fun hxc => h (hxc ▸ List.mem_cons_self x xs)
      have hxs : c ∉ xs := fun hm => h (List.mem_cons_of_mem x hm)
      simp [lastIdx, hx, lastIdx_eq_none_of_not_mem hxs]

/-- Substring containment test (`needle in haystack` in Python). -/
def listIsPrefix (needle hay : List Char) : Bool :=
  match needle, hay with
  | [], _ => true
  | n :: ns, h :: hs => n = h && listIsPrefix ns hs
  | _, [] => false

def containsSub (hay needle : List Char) : Bool :=
  match hay with
  | [] => needle.isEmpty
  | _ :: hs => listIsPrefix needle hay || containsSub hs needle

def strContains (hay needle : String) : Bool :=
  containsSub hay.data needle.data

def strStartsWith (s pre : String) : Bool :=
  listIsPrefix pre.data s.data

/-- Python `s.split("\n")`: split at every newline, keeping empty pieces. -/
def splitNlAux : List Char → List Char → List String
  | [], cur => [String.mk cur.reverse]
  | c :: rest, cur =>
      if c = '\n' then String.mk cur.reverse :: splitNlAux rest []
      else splitNlAux rest (c :: cur)

def splitNl (s : String) : List String := splitNlAux s.data []

/-- Python `"\n".join(lines)`. -/
def joinNl : List String → String
  | [] => ""
  | [x] => x
  | x :: rest => x ++ "\n" ++ joinNl rest

/- ── JSON values (the result type of Python `json.loads`) ─────────────── -/

/-- A parsed JSON value.  Integer literals (no fraction/exponent) become
`num` (Python parses them with `int`); any other numeric literal — including
the non-standard `NaN`/`Infinity`/`-Infinity` constants Python accepts — is
kept as its lexeme in `numLit` (Python parses them with `float`; floating
point is not re-modelled, and no claim in this development depends on float
arithmetic). Objects keep Python `dict` semantics: first-occurrence order,
last-occurrence value. -/
inductive Json where
  | null
  | bool (b : Bool)
  | num (n : Int)
  | numLit (lexeme : String)
  | str (s : String)
  | arr (elems : List Json)
  | obj (members : List (String × Json))
deriving Repr

mutual
def jsonBeq : Json → Json → Bool
  | .null, .null => true
  | .bool a, .bool b => a = b
  | .num a, .num b => a = b
  | .numLit a, .numLit b => a = b
  | .str a, .str b => a = b
  | .arr a, .arr b => jsonListBeq a b
  | .obj a, .obj b => jsonMembersBeq a b
  | _, _ => false
def jsonListBeq (xs ys : List Json) : Bool :=
  match xs, ys with
  | [], [] => true
  | p :: ps, q :: qs => jsonBeq p q && jsonListBeq ps qs
  | _, _ => false
def jsonMembersBeq (xs ys : List (String × Json)) : Bool :=
  match xs, ys with
  | [], [] => true
  | (k1, w1) :: t1, (k2, w2) :: t2 => k1 = k2 && jsonBeq w1 w2 && jsonMembersBeq t1 t2
  | _, _ => false
end

mutual
theorem jsonBeq_eq : ∀ a b : Json, jsonBeq a b = true → a = b
  | .null, .null, _ => rfl
  | .bool a, .bool b, h => by simp [jsonBeq] at h; simp [h]
  | .num a, .num b, h => by simp [jsonBeq] at h; simp [h]
  | .numLit a, .numLit b, h => by simp [jsonBeq] at h; simp [h]
  | .str a, .str b, h => by simp [jsonBeq] at h; simp [h]
  | .arr a, .arr b, h => by
      simp only [jsonBeq] at h
      exact congrArg Json.arr (jsonListBeq_eq a b h)
  | .obj a, .obj b, h => by
      simp only [jsonBeq] at h
      exact congrArg Json.obj (jsonMembersBeq_eq a b h)
  | .null, .bool _, h => by simp [jsonBeq] at h
  | .null, .num _, h => by simp [jsonBeq] at h
  | .null, .numLit _, h => by simp [jsonBeq] at h
  | .null, .str _, h => by simp [jsonBeq] at h
  | .null, .arr _, h => by simp [jsonBeq] at h
  | .null, .obj _, h => by simp [jsonBeq] at h
  | .bool _, .null, h => by simp [jsonBeq] at h
  | .bool _, .num _, h => by simp [jsonBeq] at h
  | .bool _, .numLit _, h => by simp [jsonBeq] at h
  | .bool _, .str _, h => by simp [jsonBeq] at h
  | .bool _, .arr _, h => by simp [jsonBeq] at h
  | .bool _, .obj _, h => by simp [jsonBeq] at h
  | .num _, .null, h => by simp [jsonBeq] at h
  | .num _, .bool _, h => by simp [jsonBeq] at h
  | .num _, .numLit _, h => by simp [jsonBeq] at h
  | .num _, .str _, h => by simp [jsonBeq] at h
  | .num _, .arr _, h => by simp [jsonBeq] at h
  | .num _, .obj _, h => by simp [jsonBeq] at h
  | .numLit _, .null, h => by simp [jsonBeq] at h
  | .numLit _, .bool _, h => by simp [jsonBeq] at h
  | .numLit _, .num _, h => by simp [jsonBeq] at h
  | .numLit _, .str _, h => by simp [jsonBeq] at h
  | .numLit _, .arr _, h => by simp [jsonBeq] at h
  | .numLit _, .obj _, h => by simp [jsonBeq] at h
  | .str _, .null, h => by simp [jsonBeq] at h
  | .str _, .bool _, h => by simp [jsonBeq] at h
  | .str _, .num _, h => by simp [jsonBeq] at h
  | .str _, .numLit _, h => by simp [jsonBeq] at h
  | .str _, .arr _, h => by simp [jsonBeq] at h
  | .str _, .obj _, h => by simp [jsonBeq] at h
  | .arr _, .null, h => by simp [jsonBeq] at h
  | .arr _, .bool _, h => by simp [jsonBeq] at h
  | .arr _, .num _, h => by simp [jsonBeq] at h
  | .arr _, .numLit _, h => by simp [jsonBeq] at h
  | .arr _, .str _, h => by simp [jsonBeq] at h
  | .arr _, .obj _, h => by simp [jsonBeq] at h
  | .obj _, .null, h => by simp [jsonBeq] at h
  | .obj _, .bool _, h => by simp [jsonBeq] at h
  | .obj _, .num _, h => by simp [jsonBeq] at h
  | .obj _, .numLit _, h => by simp [jsonBeq] at h
  | .obj _, .str _, h => by simp [jsonBeq] at h
  | .obj _, .arr _, h => by simp [jsonBeq] at h
theorem jsonListBeq_eq : ∀ a b : List Json, jsonListBeq a b = true → a = b
  | [], [], _ => rfl
  | x :: xs, y :: ys, h => by
      simp only [jsonListBeq, Bool.and_eq_true] at h
      rw [jsonBeq_eq x y h.1, jsonListBeq_eq xs ys h.2]
  | [], _ :: _, h => by simp [jsonListBeq] at h
  | _ :: _, [], h => by simp [jsonListBeq] at h
theorem jsonMembersBeq_eq : ∀ a b : List (String × Json), jsonMembersBeq a b = true → a = b
  | [], [], _ => rfl
  | (kx, vx) :: xs, (ky, vy) :: ys, h => by
      simp only [jsonMembersBeq, Bool.and_eq_true, decide_eq_true_eq] at h
      rw [h.1.1, jsonBeq_eq vx vy h.1.2, jsonMembersBeq_eq xs ys h.2]
  | [], _ :: _, h => by simp [jsonMembersBeq] at h
  | _ :: _, [], h => by simp [jsonMembersBeq] at h
end

mutual
theorem jsonBeq_refl : ∀ a : Json, jsonBeq a a = true
  | .null => rfl
  | .bool a => by simp [jsonBeq]
  | .num a => by simp [jsonBeq]
  | .numLit a => by simp [jsonBeq]
  | .str a => by simp [jsonBeq]
  | .arr a => by simp only [jsonBeq]; exact jsonListBeq_refl a
  | .obj a => by simp only [jsonBeq]; exact jsonMembersBeq_refl a
theorem jsonListBeq_refl : ∀ a : List Json, jsonListBeq a a = true
  | [] => rfl
  | x :: xs => by
      simp only [jsonListBeq, Bool.and_eq_true]
      exact ⟨jsonBeq_refl x, jsonListBeq_refl xs⟩
theorem jsonMembersBeq_refl : ∀ a : List (String × Json), jsonMembersBeq a a = true
  | [] => rfl
  | (k, v) :: xs => by
      simp only [jsonMembersBeq, Bool.and_eq_true, decide_eq_true_eq, eq_self_iff_true,
        true_and]
      exact ⟨jsonBeq_refl v, jsonMembersBeq_refl xs⟩
end

instance : DecidableEq Json := fun a b =>
  if h : jsonBeq a b = true then
    .isTrue (jsonBeq_eq a b h)
  else
    .isFalse (fun he => h (he ▸ jsonBeq_refl a))

instance {ε α : Type} [DecidableEq ε] [DecidableEq α] : DecidableEq (Except ε α) :=
  fun a b =>
    match a, b with
    | .ok x, .ok y =>
        if h : x = y then .isTrue (by rw [h]) else .isFalse (by simp [h])
    | .error x, .error y =>
        if h : x = y then .isTrue (by rw [h]) else .isFalse (by simp [h])
    | .ok _, .error _ => .isFalse (by simp)
    | .error _, .ok _ => .isFalse (by simp)

/- ── A strict JSON parser modelling Python `json.loads` ───────────────── -/

/-- JSON structural whitespace (Python `json.decoder.WHITESPACE`). -/
def skipJsonWs : List Char → List Char
  | c :: cs => if c = ' ' || c = '\t' || c = '\n' || c = '\r' then skipJsonWs cs else c :: cs
  | [] => []

def isDigitCh (c : Char) : Bool :=
  let n := c.toNat
  0x30 ≤ n && n ≤ 0x39

def takeDigits (cs : List Char) : List Char × List Char :=
  (cs.takeWhile isDigitCh, cs.dropWhile isDigitCh)

def digitsToNat (ds : List Char) : Nat :=
  ds.foldl (fun a d => a * 10 + (d.toNat - 0x30)) 0

/-- The value of one hexadecimal digit, by code point. -/
def hexDigitVal (c : Char) : Option Nat :=
  let n := c.toNat
  if 0x30 ≤ n && n ≤ 0x39 then some (n - 0x30)
  else if 0x61 ≤ n && n ≤ 0x66 then some (n - 0x57)
  else if 0x41 ≤ n && n ≤ 0x46 then some (n - 0x37)
  else none

/-- The value of a run of hexadecimal digits (used on the four digits of a
`\uXXXX` escape). -/
def hexQuad (ds : List Char) : Option Nat :=
  ds.foldl
    (fun acc c =>
      match acc, hexDigitVal c with
      | some a, some v => some (a * 16 + v)
      | _, _ => none)
    (some 0)

/-- The short escapes of a JSON string: `\"`, `\\`, `\/` denote themselves,
and `n`, `r`, `t`, `b`, `f` their control characters. -/
def jsonUnescape (c : Char) : Option Char :=
  match c.toNat with
  | 0x22 => some c
  | 0x5c => some c
  | 0x2f => some c
  | 0x6e => some (Char.ofNat 0x0a)
  | 0x72 => some (Char.ofNat 0x0d)
  | 0x74 => some (Char.ofNat 0x09)
  | 0x62 => some (Char.ofNat 0x08)
  | 0x66 => some (Char.ofNat 0x0c)
  | _ => none

/-- Parse a JSON string body after the opening quote, per Python's strict
`py_scanstring`: raw control characters below U+0020 are rejected, the eight
short escapes and `\uXXXX` are decoded, and `\uD800-\uDBFF` followed by a low
surrogate escape is combined.  A *lone* surrogate escape is kept verbatim by
Python (whose `str` admits surrogates) but cannot inhabit Lean's `Char`; it is
mapped to a parse failure here, and no input in this development contains one. -/
def pyParseStrAux : Nat → List Char → List Char → Option (String × List Char)
  | 0, _, _ => none
  | fuel + 1, acc, cs =>
    match cs with
    | [] => none
    | c0 :: more =>
      if c0.toNat = 0x22 then some (String.mk acc.reverse, more)
      else if c0.toNat = 0x5c then
        match more with
        | [] => none
        | e :: tail =>
          if e.toNat = 0x75 then
            match tail with
            | h1 :: h2 :: h3 :: h4 :: tail2 =>
                match hexQuad [h1, h2, h3, h4] with
                | none => none
                | some n =>
                    if 0xD800 ≤ n && n < 0xDC00 then
                      match tail2 with
                      | s1 :: s2 :: h5 :: h6 :: h7 :: h8 :: tail3 =>
                          if s1.toNat = 0x5c && s2.toNat = 0x75 then
                            match hexQuad [h5, h6, h7, h8] with
                            | some m =>
                                if 0xDC00 ≤ m && m < 0xE000 then
                                  pyParseStrAux fuel
                                    (Char.ofNat (0x10000 + (n - 0xD800) * 0x400 + (m - 0xDC00)) :: acc)
                                    tail3
                                else none
                            | none => none
                          else none
                      | _ => none
                    else if 0xDC00 ≤ n && n < 0xE000 then none
                    else pyParseStrAux fuel (Char.ofNat n :: acc) tail2
            | _ => none
          else
            match jsonUnescape e with
            | some ch => pyParseStrAux fuel (ch :: acc) tail
            | none => none
      else if c0.toNat < 0x20 then none
      else pyParseStrAux fuel (c0 :: acc) more

/-- String-body parse entry point: the fuel (one unit per consumed escape or
character) always suffices. -/
def pyParseStr (cs : List Char) : Option (String × List Char) :=
  pyParseStrAux (cs.length + 1) [] cs

/-- Consume a literal keyword (`null`, `true`, `false`, or a float constant)
at the current position, returning the remainder on a match. -/
def stripLit (kw : String) (cs : List Char) : Option (List Char) :=
  if listIsPrefix kw.data cs then some (cs.drop kw.data.length) else none

/-- Parse a numeric literal per Python's `NUMBER_RE`
(`(-?(?:0|[1-9]\d*))(\.\d+)?([eE][-+]?\d+)?`): the regex consumes the longest
match and anything after it is left for the caller.  A plain integer lexeme
becomes `Json.num`; any lexeme with a fraction or exponent part stays a
`Json.numLit`. -/
def pyParseNum (cs : List Char) : Option (Json × List Char) :=
  let (negChars, cs1) : List Char × List Char :=
    match cs with
    | '-' :: r => (['-'], r)
    | _ => ([], cs)
  let intPart : Option (List Char × List Char) :=
    match cs1 with
    | '0' :: r => some (['0'], r)
    | c :: r =>
        if '1' ≤ c && c ≤ '9' then
          let (ds, r2) := takeDigits r
          some (c :: ds, r2)
        else none
    | [] => none
  match intPart with
  | none => none
  | some (intDs, cs2) =>
      let (fracDs, cs3) : List Char × List Char :=
        match cs2 with
        | '.' :: r =>
            let (ds, r2) := takeDigits r
            if ds.isEmpty then ([], cs2) else (ds, r2)
        | _ => ([], cs2)
      let (expChars, cs4) : List Char × List Char :=
        match cs3 with
        | e :: r =>
            if e = 'e' || e = 'E' then
              let (sgn, r1) : List Char × List Char :=
                match r with
                | '+' :: r' => (['+'], r')
                | '-' :: r' => (['-'], r')
                | _ => ([], r)
              let (ds, r2) := takeDigits r1
              if ds.isEmpty then ([], cs3) else (e :: (sgn ++ ds), r2)
            else ([], cs3)
        | [] => ([], cs3)
      if fracDs.isEmpty && expChars.isEmpty then
        let mag : Int := (digitsToNat intDs : Int)
        some (.num (if negChars.isEmpty then mag else -mag), cs2)
      else
        let lexeme := negChars ++ intDs ++
          (if fracDs.isEmpty then [] else '.' :: fracDs) ++ expChars
        some (.numLit (String.mk lexeme), cs4)

/-- Python `dict` assignment: replace the value at the first occurrence of the
key, else append (first-occurrence order, last value wins). -/
def pyDictSet (ms : List (String × Json)) (k : String) (v : Json) : List (String × Json) :=
  match ms with
  | [] => [(k, v)]
  | (k', v') :: rest => if k' = k then (k', v) :: rest else (k', v') :: pyDictSet rest k v

def pyDictGet (ms : List (String × Json)) (k : String) : Option Json :=
  match ms with
  | [] => none
  | (k', v) :: rest => if k' = k then some v else pyDictGet rest k

/-- The parse positions of the scanner: a value, the inside of an object
just after `{`, an object member list with the members so far, the inside of
an array just after `[`, and an element list with the elements so far. -/
inductive PTask where
  | val
  | objStart
  | members (acc : List (String × Json))
  | arrStart
  | elems (acc : List Json)

/-- The scanner of Python's `json.loads`, as one fuel-structural function.
`.val` parses one value at an already whitespace-skipped position, following
the dispatch order of Python's pure scanner: string, object, array,
`null`/`true`/`false`, number, then the `NaN`/`Infinity`/`-Infinity`
constants.  Objects and arrays allow whitespace around every token, require
a value after each comma (no trailing commas), and objects require string
keys; duplicate keys follow `dict` semantics via `pyDictSet`.  Fuel only
bounds recursion; callers supply more than any input can consume. -/
def pyParseGo : Nat → PTask → List Char → Option (Json × List Char)
  | 0, _, _ => none
  | fuel + 1, .val, cs =>
      match cs with
      | '"' :: r =>
          match pyParseStr r with
          | some (s, r2) => some (.str s, r2)
          | none => none
      | '{' :: r => pyParseGo fuel .objStart r
      | '[' :: r => pyParseGo fuel .arrStart r
      | _ =>
          match stripLit "null" cs with
          | some r => some (.null, r)
          | none =>
          match stripLit "true" cs with
          | some r => some (.bool true, r)
          | none =>
          match stripLit "false" cs with
          | some r => some (.bool false, r)
          | none =>
          match pyParseNum cs with
          | some x => some x
          | none =>
          match stripLit "NaN" cs with
          | some r => some (.numLit "NaN", r)
          | none =>
          match stripLit "Infinity" cs with
          | some r => some (.numLit "Infinity", r)
          | none =>
          match stripLit "-Infinity" cs with
          | some r => some (.numLit "-Infinity", r)
          | none => none
  | fuel + 1, .objStart, cs =>
      match skipJsonWs cs with
      | '}' :: r => some (.obj [], r)
      | cs2 => pyParseGo fuel (.members []) cs2
  | fuel + 1, .members acc, cs =>
      match cs with
      | '"' :: r =>
          match pyParseStr r with
          | none => none
          | some (k, r1) =>
              match skipJsonWs r1 with
              | ':' :: r2 =>
                  match pyParseGo fuel .val (skipJsonWs r2) with
                  | none => none
                  | some (v, r3) =>
                      let acc2 := pyDictSet acc k v
                      match skipJsonWs r3 with
                      | ',' :: r4 => pyParseGo fuel (.members acc2) (skipJsonWs r4)
                      | '}' :: r4 => some (.obj acc2, r4)
                      | _ => none
              | _ => none
      | _ => none
  | fuel + 1, .arrStart, cs =>
      match skipJsonWs cs with
      | ']' :: r => some (.arr [], r)
      | cs2 => pyParseGo fuel (.elems []) cs2
  | fuel + 1, .elems acc, cs =>
      match pyParseGo fuel .val cs with
      | none => none
      | some (v, r) =>
          match skipJsonWs r with
          | ',' :: r2 => pyParseGo fuel (.elems (acc ++ [v])) (skipJsonWs r2)
          | ']' :: r2 => some (.arr (acc ++ [v]), r2)
          | _ => none

def pyParseVal (fuel : Nat) (cs : List Char) : Option (Json × List Char) :=
  pyParseGo fuel .val cs


/-- `json.loads`: skip leading whitespace, parse one value, and require that
only whitespace follows (else Python raises "Extra data"). -/
def pyJsonLoads (s : String) : Option Json :=
  match pyParseVal (4 * s.data.length + 16) (skipJsonWs s.data) with
  | some (j, rest) => if (skipJsonWs rest).isEmpty then some j else none
  | none => none

/- ── The repair passes of `_extract_json` (script_writer.py 190-228) ──── -/

/-- Python `re` whitespace class `\s` on `str` (the ASCII members plus the
Unicode whitespace code points). -/
def reIsWs (c : Char) : Bool :=
  let n := c.toNat
  n = 0x20 || n = 0x09 || n = 0x0a || n = 0x0d || n = 0x0b || n = 0x0c ||
  n = 0x1c || n = 0x1d || n = 0x1e || n = 0x1f || n = 0x85 || n = 0xa0 ||
  n = 0x1680 || (0x2000 ≤ n && n ≤ 0x200a) || n = 0x2028 || n = 0x2029 ||
  n = 0x202f || n = 0x205f || n = 0x3000

/-- `re.sub(r',\s*([}\]])', r'\1', s)` as a left-to-right scan.  The state
holds the whitespace seen since a pending comma (reversed); a closing brace or
bracket completes the match and replaces it, anything else abandons it and
emits the comma and whitespace unchanged. -/
def rtcAux : List Char → Option (List Char) → List Char
  | [], none => []
  | [], some buf => ',' :: buf.reverse
  | c :: cs, some buf =>
      if c = '}' || c = ']' then c :: rtcAux cs none
      else if reIsWs c then rtcAux cs (some (c :: buf))
      else if c = ',' then ',' :: buf.reverse ++ rtcAux cs (some [])
      else ',' :: buf.reverse ++ c :: rtcAux cs none
  | c :: cs, none =>
      if c = ',' then rtcAux cs (some [])
      else c :: rtcAux cs none

/-- `re.sub(r'//.*?\n', '\n', s)`: from each `//`, drop up to and including
the first newline (replaced by the newline); a `//` never followed by a
newline matches nothing and is kept. -/
def rlcAux : List Char → Option (List Char) → List Char
  | [], none => []
  | [], some buf => '/' :: '/' :: buf.reverse
  | c :: cs, some buf => if c = '\n' then '\n' :: rlcAux cs none else rlcAux cs (some (c :: buf))
  | '/' :: '/' :: cs, none => rlcAux cs (some [])
  | c :: cs, none => c :: rlcAux cs none

/-- `re.sub(r'/\*.*?\*/', '', s, flags=re.DOTALL)`: drop each `/*`…`*/` span
up to the first terminator; an unterminated `/*` matches nothing. -/
def rbcAux : List Char → Option (List Char) → List Char
  | [], none => []
  | [], some buf => '/' :: '*' :: buf.reverse
  | '*' :: '/' :: cs, some _ => rbcAux cs none
  | c :: cs, some buf => rbcAux cs (some (c :: buf))
  | '/' :: '*' :: cs, none => rbcAux cs (some [])
  | c :: cs, none => c :: rbcAux cs none

/-- Match the regex string body `([^"\\]*(?:\\.[^"\\]*)*)` followed by `"`
(DOTALL): characters other than quote and backslash pass through, a backslash
consumes the next character whatever it is, the first unconsumed quote closes.
Returns the body and the remainder after the closing quote. -/
def matchStrBody : List Char → Option (List Char × List Char)
  | '"' :: rest => some ([], rest)
  | '\\' :: c :: rest =>
      match matchStrBody rest with
      | some (b, r) => some ('\\' :: c :: b, r)
      | none => none
  | '\\' :: [] => none
  | c :: rest =>
      match matchStrBody rest with
      | some (b, r) => some (c :: b, r)
      | none => none
  | [] => none

/-- The replacement body of `fix_escapes`: literal newline, carriage return
and tab characters inside the matched string value become their two-character
escapes. -/
def escBody (b : List Char) : List Char :=
  b.flatMap fun c =>
    if c = '\n' then ['\\', 'n']
    else if c = '\r' then ['\\', 'r']
    else if c = '\t' then ['\\', 't']
    else [c]

/-- `re.sub(r'":\s*"([^"\\]*(?:\\.[^"\\]*)*)"', fix_escapes, s, flags=re.DOTALL)`:
at each position try to match `":` + whitespace + a quoted string body; on a
match emit `": "` followed by the escape-fixed body and continue after it, on
a failure advance one character. -/
def fixEscapesGo : Nat → List Char → List Char
  | 0, cs => cs
  | fuel + 1, cs =>
      match cs with
      | '"' :: ':' :: rest =>
          let ws := rest.takeWhile reIsWs
          match rest.drop ws.length with
          | '"' :: body0 =>
              match matchStrBody body0 with
              | some (body, rest2) =>
                  '"' :: ':' :: ' ' :: '"' :: (escBody body ++ '"' :: fixEscapesGo fuel rest2)
              | none => '"' :: fixEscapesGo fuel (':' :: rest)
          | _ => '"' :: fixEscapesGo fuel (':' :: rest)
      | c :: rest => c :: fixEscapesGo fuel rest
      | [] => []

/-- `clean_json_string` (script_writer.py 190-204): trailing-comma removal,
comment stripping, then the quoted-string-aware escape fix. -/
def clean_json_string (s : String) : String :=
  let s1 := String.mk (rtcAux s.data none)
  let s2 := String.mk (rlcAux s1.data none)
  let s3 := String.mk (rbcAux s2.data none)
  String.mk (fixEscapesGo (s3.data.length + 1) s3.data)

/-- `unicodedata.category(ch)[0] == "C"`, modelled over the general
categories Cc (control), Cf (format) and Co (private use); the unassigned
category Cn is not reproduced (it would require the full Unicode character
database), and no claim in this development depends on characters outside
these ranges. -/
def unicodeCategoryC (c : Char) : Bool :=
  let n := c.toNat
  n < 0x20 || (0x7f ≤ n && n ≤ 0x9f) ||
  n = 0xad || (0x600 ≤ n && n ≤ 0x605) || n = 0x61c || n = 0x6dd || n = 0x70f ||
  n = 0x8e2 || (0x200b ≤ n && n ≤ 0x200f) || (0x202a ≤ n && n ≤ 0x202e) ||
  (0x2060 ≤ n && n ≤ 0x2064) || (0x2066 ≤ n && n ≤ 0x206f) || n = 0xfeff ||
  (0xfff9 ≤ n && n ≤ 0xfffb) || n = 0x110bd || n = 0x110cd ||
  (0x13430 ≤ n && n ≤ 0x1343f) || (0x1bca0 ≤ n && n ≤ 0x1bca3) ||
  (0x1d173 ≤ n && n ≤ 0x1d17a) || n = 0xe0001 || (0xe0020 ≤ n && n ≤ 0xe007f) ||
  (0xe000 ≤ n && n ≤ 0xf8ff) || (0xf0000 ≤ n && n ≤ 0xffffd) ||
  (0x100000 ≤ n && n ≤ 0x10fffd)

/-- The `i == 1` repair of `_extract_json`: keep a character when its general
category does not start with "C" or it is one of `\n`, `\r`, `\t`. -/
def stripNonPrintable (s : String) : String :=
  String.mk (s.data.filter fun ch =>
    !(unicodeCategoryC ch) || ch = '\n' || ch = '\r' || ch = '\t')

/-- The quote pass of `_rescue_truncated_json`: toggle on every `"` whose
predecessor character is not a backslash (the source checks `s[i-1] != '\\'`,
so an escaped backslash before a quote still suppresses the toggle — kept
as written). -/
def quoteParity : List Char → Option Char → Bool → Bool
  | [], _, openQuote => openQuote
  | c :: cs, prev, openQuote =>
      let toggles := c = '"' && (match prev with | some p => p ≠ '\\' | none => true)
      quoteParity cs (some c) (if toggles then !openQuote else openQuote)

/-- The bracket pass of `_rescue_truncated_json`: push the expected closer on
`{`/`[`, and on a character of the source's literal set `'} ]'` (which
includes a space that can never equal the expected closer) pop when it matches
the top of the stack.  The stack's head is its top. -/
def closerStack : List Char → List Char → List Char
  | [], stack => stack
  | c :: cs, stack =>
      if c = '{' then closerStack cs ('}' :: stack)
      else if c = '[' then closerStack cs (']' :: stack)
      else if c = '}' || c = ' ' || c = ']' then
        match stack with
        | top :: rest => if c = top then closerStack cs rest else closerStack cs stack
        | [] => closerStack cs stack
      else closerStack cs stack

/-- `_rescue_truncated_json` (script_writer.py 206-228): append a closing
quote when the unescaped-quote count is odd, then append the expected closers
in reverse (pop) order. -/
def rescue_truncated_json (s : String) : String :=
  let s1 := if quoteParity s.data none false then s ++ "\"" else s
  s1 ++ String.mk (closerStack s1.data [])

/- ── `_extract_json` (script_writer.py 161-244) ───────────────────────── -/

/-- The repair loop of `_extract_json` over an already-extracted brace span:
up to four parse attempts — the raw span, `clean_json_string` of the span,
that with non-printable characters stripped, and that rescued for truncation.
Returns the parse result alongside the number of parse attempts made. -/
def extract_json_core (content : String) : Option Json × Nat :=
  match pyJsonLoads content with
  | some j => (some j, 1)
  | none =>
    let a1 := clean_json_string content
    match pyJsonLoads a1 with
    | some j => (some j, 2)
    | none =>
      let a2 := stripNonPrintable a1
      match pyJsonLoads a2 with
      | some j => (some j, 3)
      | none =>
        let a3 := rescue_truncated_json a2
        match pyJsonLoads a3 with
        | some j => (some j, 4)
        | none => (none, 4)

/-- `_extract_json`, with the number of parse attempts it made: empty text
fails at once; a missing `{`, a missing `}`, or a last `}` at or before the
first `{` fails before any parse; otherwise the span between the first `{`
and the last `}` (inclusive) goes through the repair loop.  The side-effecting
debug dump (`save_failed`) writes a file and swallows its own failure; it has
no bearing on the returned value and is not modelled. -/
def extract_json_with_count (text : String) : Option Json × Nat :=
  if text.isEmpty then (none, 0)
  else
    match firstIdx '{' text.data, lastIdx '}' text.data with
    | some start, some stop =>
        if stop ≤ start then (none, 0)
        else extract_json_core (String.mk ((text.data.drop start).take (stop + 1 - start)))
    | some _, none => (none, 0)
    | none, _ => (none, 0)

/-- `_extract_json` as the caller sees it: a parsed mapping or `None`. -/
def extract_json (text : String) : Option Json :=
  (extract_json_with_count text).1

/- ── Python truthiness and attribute access on JSON values ────────────── -/

/-- Truthiness of a float literal (`float(lexeme) != 0.0`): `NaN` and the
infinities are truthy; a finite lexeme is truthy exactly when its mantissa has
a nonzero digit. -/
def floatLexemeTruthy (s : String) : Bool :=
  let t : List Char := match s.data with
    | '-' :: r => r
    | l => l
  if t = "NaN".data || t = "Infinity".data then true
  else (t.takeWhile fun c => c ≠ 'e' && c ≠ 'E').any fun c => isDigitCh c && c ≠ '0'

/-- Python truthiness of a `json.loads` result (`bool(x)`). -/
def jsonTruthy : Json → Bool
  | .null => false
  | .bool b => b
  | .num n => n ≠ 0
  | .numLit s => floatLexemeTruthy s
  | .str s => !s.data.isEmpty
  | .arr l => !l.isEmpty
  | .obj m => !m.isEmpty

/-- `x.get(k, d)`: defined on dictionaries, an `AttributeError` otherwise. -/
def pyGetAttr (j : Json) (k : String) (d : Json) : Except String Json :=
  match j with
  | .obj ms => .ok ((pyDictGet ms k).getD d)
  | _ => .error "AttributeError: no attribute get"

/-- `for x in v`: lists yield elements, strings their one-character strings,
dictionaries their keys; other values raise `TypeError`. -/
def pyIter : Json → Except String (List Json)
  | .arr l => .ok l
  | .str s => .ok (s.data.map fun c => Json.str (String.mk [c]))
  | .obj ms => .ok (ms.map fun kv => Json.str kv.1)
  | _ => .error "TypeError: object is not iterable"

/-- String concatenation operand: `str + x` raises `TypeError` unless `x` is
a string. -/
def asPyStr : Json → Except String String
  | .str s => .ok s
  | _ => .error "TypeError: can only concatenate str"

/-- `x[k] = v` on a dictionary; the orchestrator only ever assigns into
values that are dictionaries, so other values pass through untouched. -/
def pySetItem (j : Json) (k : String) (v : Json) : Json :=
  match j with
  | .obj ms => .obj (pyDictSet ms k v)
  | other => other

/-- `len(x)` for sized values (list, string, dictionary). -/
def pyLen : Json → Except String Nat
  | .arr l => .ok l.length
  | .str s => .ok s.length
  | .obj ms => .ok ms.length
  | _ => .error "TypeError: object has no len"

/- ── `generate_script` post-processing (script_writer.py 142-271) ─────── -/

/-- Markdown-fence handling (script_writer.py 143-147): when the stripped
response starts with a fence, drop every line whose stripped form starts with
triple backticks and rejoin. -/
def stripCodeFence (t : String) : String :=
  if strStartsWith t "```" then
    joinNl ((splitNl t).filter fun l => !strStartsWith (pyStrip l) "```")
  else t

/-- The full-script accumulation loop (script_writer.py 259-260):
`full_script += "\n\n" + story.get("script", "")` for each story. -/
def appendStories : List Json → String → Except String String
  | [], acc => .ok acc
  | st :: rest, acc => do
      let sv ← pyGetAttr st "script" (.str "")
      let s ← asPyStr sv
      appendStories rest (acc ++ "\n\n" ++ s)

/-- script_writer.py 257-261: `full_script` starts as
`script_data.get("intro_script", "")`, accumulates each story's `script`, and
ends with `"\n\n" + script_data.get("outro_script", "")`.  A non-string where
a string is concatenated raises `TypeError`, as in Python. -/
def buildFullScriptE (j : Json) : Except String String := do
  let intro ← pyGetAttr j "intro_script" (.str "")
  let introS ← asPyStr intro
  let storiesV ← pyGetAttr j "stories" (.arr [])
  let stories ← pyIter storiesV
  let acc ← appendStories stories introS
  let outro ← pyGetAttr j "outro_script" (.str "")
  let outroS ← asPyStr outro
  return acc ++ "\n\n" ++ outroS

/-- The part of `generate_script` that turns the model's response text into
the returned script mapping (script_writer.py 134, 142-147, 250-264): strip,
remove a markdown fence, extract JSON (raising the debug-artifact error when
the result is `None` or falsy), build `full_script`, and set the
`full_script` and `date` keys. -/
def generate_script_post (today : String) (responseText : String) : Except String Json :=
  let rt := stripCodeFence (pyStrip responseText)
  match extract_json rt with
  | none => .error "Could not extract valid JSON from Gemini response. Please check failed_response.txt to see what the AI produced."
  | some j =>
      if !jsonTruthy j then
        .error "Could not extract valid JSON from Gemini response. Please check failed_response.txt to see what the AI produced."
      else do
        let fs ← buildFullScriptE j
        return pySetItem (pySetItem j "full_script" (.str fs)) "date" (.str today)

/- ── The model-fallback retry loop (script_writer.py 85-123) ──────────── -/

/-- ASCII lowering, enough for the `"quota"` containment test (Python's
`str.lower()` is Unicode-aware, but the needle is ASCII). -/
def asciiLower (c : Char) : Char :=
  if 'A' ≤ c && c ≤ 'Z' then Char.ofNat (c.toNat + 32) else c

def strToLower (s : String) : String := String.mk (s.data.map asciiLower)

/-- A rate-limit error: `"429" in err_str or "quota" in err_str.lower()`. -/
def isRateLimitErr (e : String) : Bool :=
  strContains e "429" || strContains (strToLower e) "quota"

/-- Order-preserving de-duplication (script_writer.py 88-89). -/
def dedupKeepFirst : List String → List String → List String
  | [], _ => []
  | m :: rest, seen =>
      if seen.contains m then dedupKeepFirst rest seen
      else m :: dedupKeepFirst rest (m :: seen)

/-- The fallback model list (script_writer.py 86-89): the configured model
followed by the three hard-coded fallbacks, duplicates removed keeping the
first occurrence. -/
def models_to_try (modelName : String) : List String :=
  dedupKeepFirst [modelName, "gemini-2.5-flash", "gemini-2.0-flash", "gemini-2.0-flash-lite"] []

/-- The attempt indices and backoff waits of the inner retry loop:
`[5, 15, 30][attempt]` seconds for attempts 0, 1, 2. -/
def retryWaits : List (Nat × Nat) := [(0, 5), (1, 15), (2, 30)]

/-- The inner `for attempt in range(3)` loop for one model, over a generator
`gen model attempt`: a success ends the loop with a response; a rate-limit
error sleeps the attempt's backoff and retries; any other error ends the loop
for this model.  Returns the response (if any), the updated `last_error`, and
the sleeps performed in order. -/
def runAttempts (gen : String → Nat → Except String String) (m : String) :
    List (Nat × Nat) → Option String → Option String × Option String × List Nat
  | [], le => (none, le, [])
  | (k, w) :: rest, le =>
      match gen m k with
      | .ok r => (some r, le, [])
      | .error e =>
          if isRateLimitErr e then
            match runAttempts gen m rest (some e) with
            | (resp, le2, ws) => (resp, le2, w :: ws)
          else (none, some e, [])

/-- The outer `for try_model in models_to_try` loop: run the three-attempt
inner loop per model and stop at the first model that produced a response.
Returns the winning model with its response, the final `last_error`, and the
concatenated sleep trace. -/
def runModels (gen : String → Nat → Except String String) :
    List String → Option String → Option (String × String) × Option String × List Nat
  | [], le => (none, le, [])
  | m :: rest, le =>
      match runAttempts gen m retryWaits le with
      | (some r, le2, ws) => (some (m, r), le2, ws)
      | (none, le2, ws) =>
          match runModels gen rest le2 with
          | (res, le3, ws2) => (res, le3, ws ++ ws2)

/-- script_writer.py 85-123 as a whole: try the fallback list; if no model
produced a response, raise `last_error` (or the generic message when no call
was ever made). -/
def generate_with_fallback (gen : String → Nat → Except String String)
    (modelName : String) : Except String (String × String) × List Nat :=
  match runModels gen (models_to_try modelName) none with
  | (some mr, _, ws) => (.ok mr, ws)
  | (none, some e, ws) => (.error e, ws)
  | (none, none, ws) => (.error "All Gemini models failed", ws)

/- ── The pipeline orchestrator (main.py run_pipeline) ─────────────────── -/

/-- One recorded external interaction of a pipeline run: a pipeline-logger
line (captured by the dashboard's log handler) or a collaborator call. -/
inductive Event where
  | log (msg : String)
  | fetchNews
  | genScript
  | voice (text : String)
  | video
  | thumb
  | upload
  | createShort
  | uploadShort
  | telegram
  | notify (title : Json)
  | dailySummary
deriving Repr, DecidableEq

/-- The on-disk artifacts the orchestrator reads and writes for resume:
`raw_articles.json`, `script_data.json`, `voiceover.mp3` (existence only) and
`pipeline_results.json`. -/
structure Disk where
  rawArticles : Option (List Json) := none
  scriptDataFile : Option Json := none
  voiceoverExists : Bool := false
  resultsFile : Option (List (String × Json)) := none
deriving Repr, DecidableEq

/-- The carry-state of one run (main.py 68-75) plus the event trace and the
disk. -/
structure St where
  events : List Event := []
  results : List (String × Json) := []
  articles : List Json := []
  scriptData : Json := .obj []
  voiceoverPath : Option String := none
  videoPath : Option String := none
  thumbnailPath : Option String := none
  shortPath : Option String := none
  youtubeResult : Json := .obj []
  disk : Disk := {}
deriving Repr, DecidableEq

/-- The external collaborators, each returning a value or the text of the
exception it raised.  `genResponse` stands for the whole Gemini interaction of
`generate_script` up to `response.text` (configuration, the fallback loop —
modelled separately by `generate_with_fallback` — and the safety checks);
the sleeps and model choice inside it are invisible to the orchestrator. -/
structure Collab where
  fetchNews : Except String (List Json)
  genResponse : Except String String
  genVoice : String → Except String Unit
  buildVideo : Except String String
  genThumb : Except String Unit
  uploadVideo : Except String Json
  createShort : Except String Unit
  uploadShort : Except String Unit
  postTelegram : Except String Unit
  sendNotification : Except String Unit
  sendDailySummary : Except String Unit

def push (st : St) (ev : Event) : St := { st with events := st.events ++ [ev] }

def setResult (st : St) (k : String) (v : Json) : St :=
  { st with results := pyDictSet st.results k v }

/-- STEP 1 (main.py 81-92): fetch headlines, record the count, persist the
raw articles. -/
def step1 (C : Collab) (st : St) : Except (String × St) St :=
  let st := push st (.log "📰 STEP 1: Fetching news headlines...")
  let st := push st .fetchNews
  match C.fetchNews with
  | .error e => .error (e, st)
  | .ok articles =>
      let st := { st with articles := articles,
                          disk := { st.disk with rawArticles := some articles } }
      .ok (setResult st "news_count" (.str (toString articles.length)))

/-- STEP 2 (main.py 97-114): resolve articles (in memory, else the persisted
`raw_articles.json`, else fail), run `generate_script`, persist the script,
record the story count. -/
def step2 (C : Collab) (today : String) (st : St) : Except (String × St) St :=
  let st := push st (.log "📝 STEP 2: Generating script with AI...")
  match (if st.articles.isEmpty then
           match st.disk.rawArticles with
           | some a => Except.ok a
           | none => Except.error "No articles found. Run step 1 first."
         else Except.ok st.articles) with
  | .error e => .error (e, st)
  | .ok articles =>
    let st := { st with articles := articles }
    let st := push st .genScript
    match C.genResponse with
    | .error e => .error (e, st)
    | .ok raw =>
      match generate_script_post today raw with
      | .error e => .error (e, st)
      | .ok sd =>
        let st := { st with scriptData := sd,
                            disk := { st.disk with scriptDataFile := some sd } }
        match (do let sv ← pyGetAttr sd "stories" (Json.arr []); pyLen sv) with
        | .error e => .error (e, st)
        | .ok n => .ok (setResult st "story_count" (.str (toString n)))

/-- STEP 3 (main.py 119-139): resolve the script (in memory, else the
persisted `script_data.json` when it exists, else fail), reject an empty
`full_script`, synthesize the voiceover. -/
def step3 (C : Collab) (st : St) : Except (String × St) St :=
  let st := push st (.log "🎤 STEP 3: Generating voiceover...")
  match (if !(jsonTruthy st.scriptData) then
           match st.disk.scriptDataFile with
           | some j => Except.ok j
           | none => Except.error "No script found. Run step 2 first."
         else Except.ok st.scriptData) with
  | .error e => .error (e, st)
  | .ok sd =>
    let st := { st with scriptData := sd }
    match pyGetAttr sd "full_script" (.str "") with
    | .error e => .error (e, st)
    | .ok fsj =>
      if !(jsonTruthy fsj) then .error ("Script is empty!", st)
      else
        match fsj with
        | .str fs =>
            let st := push st (.voice fs)
            match C.genVoice fs with
            | .error e => .error (e, st)
            | .ok _ =>
                let st := { st with voiceoverPath := some "voiceover.mp3",
                                    disk := { st.disk with voiceoverExists := true } }
                .ok (setResult st "voiceover_status" (.str "✅ Done"))
        | _ => .error ("TypeError: voiceover text is not a string", st)

/-- STEP 4 (main.py 144-160): load the script when absent (`open` without an
existence check), require the voiceover artifact when resumed from disk,
render the video. -/
def step4 (C : Collab) (st : St) : Except (String × St) St :=
  let st := push st (.log "🎬 STEP 4: Building video...")
  match (if !(jsonTruthy st.scriptData) then
           match st.disk.scriptDataFile with
           | some j => Except.ok j
           | none => Except.error "FileNotFoundError: script_data.json"
         else Except.ok st.scriptData) with
  | .error e => .error (e, st)
  | .ok sd =>
    let st := { st with scriptData := sd }
    match (match st.voiceoverPath with
           | some p => Except.ok p
           | none =>
               if st.disk.voiceoverExists then Except.ok "voiceover.mp3"
               else Except.error "No voiceover found. Run step 3 first.") with
    | .error e => .error (e, st)
    | .ok vp =>
      let st := { st with voiceoverPath := some vp }
      let st := push st .video
      match C.buildVideo with
      | .error e => .error (e, st)
      | .ok size =>
          let st := { st with videoPath := some "final_video.mp4" }
          .ok (setResult st "video_status" (.str ("✅ " ++ size ++ " MB")))

/-- STEP 5 (main.py 165-177): load the script when absent, read the title,
render the thumbnail. -/
def step5 (C : Collab) (st : St) : Except (String × St) St :=
  let st := push st (.log "🖼️ STEP 5: Generating thumbnail...")
  match (if !(jsonTruthy st.scriptData) then
           match st.disk.scriptDataFile with
           | some j => Except.ok j
           | none => Except.error "FileNotFoundError: script_data.json"
         else Except.ok st.scriptData) with
  | .error e => .error (e, st)
  | .ok sd =>
    let st := { st with scriptData := sd }
    match pyGetAttr sd "title" (.str "Daily Current Affairs") with
    | .error e => .error (e, st)
    | .ok _title =>
      let st := push st .thumb
      match C.genThumb with
      | .error e => .error (e, st)
      | .ok _ =>
          let st := { st with thumbnailPath := some "thumbnail.png" }
          .ok (setResult st "thumbnail_status" (.str "✅ Done"))

/-- STEP 6 (main.py 182-210): under dry-run, record "⏭ Skipped (dry run)"
and do nothing else; otherwise load the script when absent, default the video
and thumbnail paths without existence checks, upload, and record the URL. -/
def step6 (C : Collab) (dryRun : Bool) (st : St) : Except (String × St) St :=
  if dryRun then
    let st := push st (.log "📤 STEP 6: SKIPPED (dry run)")
    .ok (setResult st "upload_status" (.str "⏭ Skipped (dry run)"))
  else
    let st := push st (.log "📤 STEP 6: Uploading to YouTube...")
    match (if !(jsonTruthy st.scriptData) then
             match st.disk.scriptDataFile with
             | some j => Except.ok j
             | none => Except.error "FileNotFoundError: script_data.json"
           else Except.ok st.scriptData) with
    | .error e => .error (e, st)
    | .ok sd =>
      let st := { st with scriptData := sd,
                          videoPath := some (st.videoPath.getD "final_video.mp4"),
                          thumbnailPath := some (st.thumbnailPath.getD "thumbnail.png") }
      match (do
              let _ ← pyGetAttr sd "title" (Json.str "Daily Current Affairs")
              let _ ← pyGetAttr sd "description" (Json.str "")
              pyGetAttr sd "tags" (Json.arr [])) with
      | .error e => .error (e, st)
      | .ok _ =>
        let st := push st .upload
        match C.uploadVideo with
        | .error e => .error (e, st)
        | .ok yt =>
          let st := { st with youtubeResult := yt }
          let st := setResult st "upload_status" (.str "✅ Uploaded")
          match pyGetAttr yt "url" (.str "") with
          | .error e => .error (e, st)
          | .ok url => .ok (setResult st "youtube_url" url)

/-- STEP 7 (main.py 215-255): under dry-run, record both skip markers;
otherwise create the Shorts clip (fatal on failure), try to upload it —
*only this call* is wrapped in `try/except`, so its failure merely logs a
warning and leaves `short_status` at "✅ Created" — then post to Telegram
(fatal on failure). -/
def step7 (C : Collab) (dryRun : Bool) (st : St) : Except (String × St) St :=
  if dryRun then
    let st := push st (.log "📱 STEP 7: SKIPPED (dry run)")
    let st := setResult st "short_status" (.str "⏭ Skipped")
    .ok (setResult st "telegram_status" (.str "⏭ Skipped"))
  else
    let st := push st (.log "📱 STEP 7: Cross-posting...")
    let st := { st with videoPath := some (st.videoPath.getD "final_video.mp4") }
    match (if !(jsonTruthy st.scriptData) then
             match st.disk.scriptDataFile with
             | some j => Except.ok j
             | none => Except.error "FileNotFoundError: script_data.json"
           else Except.ok st.scriptData) with
    | .error e => .error (e, st)
    | .ok sd =>
      let st := { st with scriptData := sd }
      let st := push st .createShort
      match C.createShort with
      | .error e => .error (e, st)
      | .ok _ =>
        let st := { st with shortPath := some "short.mp4" }
        let st := setResult st "short_status" (.str "✅ Created")
        let st := push st .uploadShort
        let st :=
          match (do
                  let _ ← pyGetAttr sd "title" (Json.str "")
                  let _ ← pyGetAttr sd "description" (Json.str "")
                  let _ ← pyGetAttr sd "tags" (Json.arr [])
                  C.uploadShort) with
          | .ok _ => setResult st "short_status" (.str "✅ Uploaded")
          | .error e => push st (.log ("Short upload failed: " ++ e))
        match pyGetAttr st.youtubeResult "url" ((pyDictGet st.results "youtube_url").getD (.str "")) with
        | .error e => .error (e, st)
        | .ok _yturl =>
          match (do
                  let _ ← pyGetAttr sd "title" (Json.str "")
                  let dv ← pyGetAttr sd "description" (Json.str "")
                  match dv with
                  | Json.str s => Except.ok (String.mk (s.data.take 200))
                  | Json.arr _ => Except.ok ""
                  | _ => Except.error "TypeError: value is not subscriptable") with
          | .error e => .error (e, st)
          | .ok _summary =>
            let st := push st .telegram
            match C.postTelegram with
            | .error e => .error (e, st)
            | .ok _ => .ok (setResult st "telegram_status" (.str "✅ Posted"))

/-- STEP 8 (main.py 260-273): under dry-run, only a log line — *no* results
entry is recorded; otherwise read the URL and title and send the readiness
notification and the daily summary, both fatal on failure. -/
def step8 (C : Collab) (dryRun : Bool) (st : St) : Except (String × St) St :=
  if dryRun then
    .ok (push st (.log "🔔 STEP 8: SKIPPED (dry run)"))
  else
    let st := push st (.log "🔔 STEP 8: Sending notification...")
    match pyGetAttr st.youtubeResult "url" ((pyDictGet st.results "youtube_url").getD (.str "")) with
    | .error e => .error (e, st)
    | .ok _yturl =>
      match pyGetAttr st.scriptData "title" (.str "Daily Current Affairs") with
      | .error e => .error (e, st)
      | .ok title =>
        let st := push st (.notify title)
        match C.sendNotification with
        | .error e => .error (e, st)
        | .ok _ =>
          let st := push st .dailySummary
          match C.sendDailySummary with
          | .error e => .error (e, st)
          | .ok _ => .ok st

/-- The stage sequence of `run_pipeline` (main.py 77-287): each numbered step
runs when `start_step ≤ k ≤ end_step`. -/
def runSteps (C : Collab) (disk0 : Disk) (dryRun : Bool) (startStep endStep : Nat)
    (today : String) : Except (String × St) St := do
  let st : St := { disk := disk0 }
  let st ← if startStep ≤ 1 ∧ 1 ≤ endStep then step1 C st else .ok st
  let st ← if startStep ≤ 2 ∧ 2 ≤ endStep then step2 C today st else .ok st
  let st ← if startStep ≤ 3 ∧ 3 ≤ endStep then step3 C st else .ok st
  let st ← if startStep ≤ 4 ∧ 4 ≤ endStep then step4 C st else .ok st
  let st ← if startStep ≤ 5 ∧ 5 ≤ endStep then step5 C st else .ok st
  let st ← if startStep ≤ 6 ∧ 6 ≤ endStep then step6 C dryRun st else .ok st
  let st ← if startStep ≤ 7 ∧ 7 ≤ endStep then step7 C dryRun st else .ok st
  let st ← if startStep ≤ 8 ∧ 8 ≤ endStep then step8 C dryRun st else .ok st
  return st

/-- `run_pipeline` (main.py 46-306): on success, log completion and persist
the results summary, returning `True`; on any stage failure, log the error,
attempt the best-effort failure notification — the collaborator's own result
is discarded, so its failure cannot escape (main.py 293-302) — and return
`False`. -/
def run_pipeline (C : Collab) (disk0 : Disk) (dryRun : Bool)
    (startStep endStep : Nat) (today : String) : Bool × St :=
  match runSteps C disk0 dryRun startStep endStep today with
  | .ok st =>
      let st := push st (.log "🎉 PIPELINE COMPLETE!")
      let st := { st with disk := { st.disk with resultsFile := some st.results } }
      (true, st)
  | .error (e, st) =>
      let st := push st (.log ("\n❌ Pipeline failed at: " ++ e))
      let st := push st (.notify (.str "Pipeline Error"))
      let _ := C.sendNotification
      (false, st)

/- ── The dashboard layer (dashboard.py) ───────────────────────────────── -/

/-- The slice of `pipeline_state` the control surface exposes that this
development reasons about. -/
structure DashState where
  status : String
  error : Option String
  log : List String
  results : List (String × Json)
deriving Repr, DecidableEq

/-- The pipeline-logger lines captured by the dashboard's `StepHandler`. -/
def eventLog (evs : List Event) : List String :=
  evs.filterMap fun ev => match ev with | .log m => some m | _ => none

/-- `_run_pipeline_bg` (dashboard.py 694-740): run the pipeline, then set
`status` from the boolean result and load `pipeline_results.json` when it
exists.  `run_pipeline` catches every stage exception itself, so the
handler's own `except` branch — the only writer of `pipeline_state["error"]`
— is not reached for stage failures and `error` stays `None`. -/
def run_pipeline_bg (C : Collab) (disk0 : Disk) (dryRun : Bool)
    (startStep endStep : Nat) (today : String) : DashState × St :=
  let (ok, st) := run_pipeline C disk0 dryRun startStep endStep today
  ({ status := if ok then "completed" else "failed",
     error := none,
     log := eventLog st.events,
     results := st.disk.resultsFile.getD [] }, st)

/-- The request body of `/api/pipeline/run` (dashboard.py 92-95). -/
structure PipelineRequest where
  dry_run : Bool := true
  start_step : Nat := 1
  end_step : Nat := 8
deriving Repr, DecidableEq

/-- The outcome of a start-run request: an HTTP error, or acceptance with a
background task scheduled. -/
inductive StartRunResponse where
  | rejected (httpStatus : Nat) (detail : String)
  | started (dry_run : Bool)
deriving Repr, DecidableEq

/-- `/api/pipeline/run` (dashboard.py 222-228): reject with HTTP 400 while
`pipeline_state["status"]` is "running", otherwise schedule the background
run.  The second component records whether a task was scheduled. -/
def api_pipeline_run (pipelineStatus : String) (req : PipelineRequest) :
    StartRunResponse × Bool :=
  if pipelineStatus = "running" then (.rejected 400 "Pipeline is already running", false)
  else (.started req.dry_run, true)

/-- `/api/schedule/run-now` (dashboard.py 515-520): the same guard, running
the scheduler's configured dry-run flag when accepted. -/
def api_schedule_run_now (pipelineStatus : String) (schedDryRun : Bool) :
    StartRunResponse × Bool :=
  if pipelineStatus = "running" then (.rejected 400 "Pipeline is already running", false)
  else (.started schedDryRun, true)

/- ── Spec-side readings and concrete fixtures ─────────────────────────── -/

/-- The collaborator-call events of a trace (the log lines removed). -/
def collabCalls (evs : List Event) : List Event :=
  evs.filter fun ev => match ev with | .log _ => false | _ => true

/-- Spec-side reading of a string field with the empty-string default, for
stating the full-script concatenation invariant. -/
def specGetStr (j : Json) (k : String) : String :=
  match pyGetAttr j k (.str "") with
  | .ok (.str s) => s
  | _ => ""

/-- Spec-side reading of the `stories` list. -/
def specStories (j : Json) : List Json :=
  match pyGetAttr j "stories" (.arr []) with
  | .ok v =>
      match pyIter v with
      | .ok l => l
      | .error _ => []
  | .error _ => []

/-- The `script` texts of the stories, in list order. -/
def specScriptTexts (j : Json) : List String :=
  (specStories j).map fun st => specGetStr st "script"

/-- The spec's full-script shape: intro, each story's script in order, outro,
joined by one blank line. -/
def specFullScript (j : Json) : String :=
  String.intercalate "\n\n" (specGetStr j "intro_script" :: specScriptTexts j ++ [specGetStr j "outro_script"])

/-- An all-succeeding collaborator stub used to instantiate theorems with
hypotheses at concrete inputs. -/
def stubOk : Collab where
  fetchNews := .ok []
  genResponse := .ok "\x7b\"stories\":[]\x7d"
  genVoice := fun _ => .ok ()
  buildVideo := .ok "12.3"
  genThumb := .ok ()
  uploadVideo := .ok (Json.obj [("url", Json.str "https://youtu.be/x")])
  createShort := .ok ()
  uploadShort := .ok ()
  postTelegram := .ok ()
  sendNotification := .ok ()
  sendDailySummary := .ok ()

/-- The spec's truncation-rescue example input `{"a": "hello, "b": [1,2`:
truncated mid-string, with an unclosed quote, brace and bracket — and with no
closing brace anywhere. -/
def c1Input : String := "\x7b\"a\": \"hello, \"b\": [1,2"

/-- The spec's trailing-comma example input `{"a": 1, "b": [1,2,], }`. -/
def c5Input : String := "\x7b\"a\": 1, \"b\": [1,2,], \x7d"

/-- A generator stub: model "A" is always rate-limited, the first fallback
model answers. -/
def c4GenRateLimitedA : String → Nat → Except String String := fun m _ =>
  if m = "gemini-2.5-flash" then .ok "resp" else .error "429 RESOURCE_EXHAUSTED"

/-- A generator stub failing at once with a non-rate-limit error. -/
def c4GenServerErr : String → Nat → Except String String := fun _ _ =>
  .error "500 internal server error"

/-- A generator stub where every model is always rate-limited. -/
def c4GenAllRateLimited : String → Nat → Except String String := fun _ _ =>
  .error "429 quota exceeded"

/-- A stub whose generative call fails with "429 boom" and whose notifier is
itself down. -/
def c9Stub : Collab :=
  { stubOk with genResponse := .error "429 boom", sendNotification := .error "telegram down" }

/- ── Claim theorems ───────────────────────────────────────────────────── -/

/-- C1, counterexample: on the spec's truncation example `{"a": "hello,
"b": [1,2`, `_extract_json` does not recover a mapping — it returns `None`,
because the input contains no `}` at all and the first-brace/last-brace span
check rejects it before any repair pass runs. -/
theorem C1_counterexample : extract_json c1Input = none := by decide

/-- C1, amended: for that input the extractor fails closed with zero parse
attempts (the span check fires first); the quote/bracket-balancing pass
itself, applied directly to the input, would append the closing quote and the
stacked closers `]` `}` exactly as the spec describes — but its output still
does not parse, and inside `_extract_json` it is never reached. -/
theorem C1_amended :
    extract_json_with_count c1Input = (none, 0) ∧
    rescue_truncated_json c1Input = c1Input ++ "\"]\x7d" ∧
    pyJsonLoads (rescue_truncated_json c1Input) = none := by
  refine ⟨by decide, by decide, by decide⟩

/-- C5: `{"a": 1, "b": [1,2,], }` is recovered as the mapping
`{"a": 1, "b": [1, 2]}`; the direct parse fails, the first repair pass
(`clean_json_string`) removes both trailing commas, and the second parse
attempt succeeds. -/
theorem C5_trailing_comma_repair :
    extract_json c5Input =
      some (Json.obj [("a", Json.num 1), ("b", Json.arr [Json.num 1, Json.num 2])]) ∧
    extract_json_with_count c5Input =
      (some (Json.obj [("a", Json.num 1), ("b", Json.arr [Json.num 1, Json.num 2])]), 2) ∧
    clean_json_string c5Input = "\x7b\"a\": 1, \"b\": [1,2]\x7d" ∧
    pyJsonLoads c5Input = none := by
  refine ⟨by decide, by decide, by decide, by decide⟩

/-- C7, counterexample: a dry run over steps 6..8 succeeds and records
exactly three results entries — `upload_status` and the two cross-post
markers.  The notify stage (step 8) records *no* results entry at all under
dry-run (main.py 261-262 only logs a line), so the claim that each of the
three stages records a "skipped" status in the results fails for notify. -/
theorem C7_counterexample :
    (run_pipeline stubOk {} true 6 8 "d").1 = true ∧
    (run_pipeline stubOk {} true 6 8 "d").2.results =
      [("upload_status", Json.str "⏭ Skipped (dry run)"),
       ("short_status", Json.str "⏭ Skipped"),
       ("telegram_status", Json.str "⏭ Skipped")] := by
  refine ⟨rfl, rfl⟩

/-- C7, amended: under dry-run over steps 6..8, for every collaborator set
and disk, the upload and cross-post stages record their skip markers in the
results, the notify stage skips with only a log line and no results entry,
no collaborator is invoked at all, and the run completes successfully. -/
theorem C7_amended (C : Collab) (disk : Disk) (today : String) :
    ∃ st, run_pipeline C disk true 6 8 today = (true, st) ∧
      st.results =
        [("upload_status", Json.str "⏭ Skipped (dry run)"),
         ("short_status", Json.str "⏭ Skipped"),
         ("telegram_status", Json.str "⏭ Skipped")] ∧
      st.events =
        [Event.log "📤 STEP 6: SKIPPED (dry run)",
         Event.log "📱 STEP 7: SKIPPED (dry run)",
         Event.log "🔔 STEP 8: SKIPPED (dry run)",
         Event.log "🎉 PIPELINE COMPLETE!"] ∧
      collabCalls st.events = [] := by
  exact ⟨_, rfl, rfl, rfl, rfl⟩

/-- C8: a start-run request while the pipeline state is "running" is
rejected with HTTP 400 and no background task is scheduled, on both the
`/api/pipeline/run` and `/api/schedule/run-now` endpoints; in the "idle",
"completed" and "failed" states the request is accepted and a run is
started. -/
theorem C8_single_run_exclusivity (req : PipelineRequest) (schedDry : Bool) :
    api_pipeline_run "running" req = (.rejected 400 "Pipeline is already running", false) ∧
    api_pipeline_run "idle" req = (.started req.dry_run, true) ∧
    api_pipeline_run "completed" req = (.started req.dry_run, true) ∧
    api_pipeline_run "failed" req = (.started req.dry_run, true) ∧
    api_schedule_run_now "running" schedDry = (.rejected 400 "Pipeline is already running", false) ∧
    api_schedule_run_now "idle" schedDry = (.started schedDry, true) ∧
    api_schedule_run_now "completed" schedDry = (.started schedDry, true) ∧
    api_schedule_run_now "failed" schedDry = (.started schedDry, true) := by
  simp [api_pipeline_run, api_schedule_run_now]

theorem extract_json_core_count_le (s : String) : (extract_json_core s).2 ≤ 4 := by
  unfold extract_json_core
  cases h1 : pyJsonLoads s
  · simp only [h1]
    cases h2 : pyJsonLoads (clean_json_string s)
    · simp only [h2]
      cases h3 : pyJsonLoads (stripNonPrintable (clean_json_string s))
      · simp only [h3]
        cases h4 : pyJsonLoads (rescue_truncated_json (stripNonPrintable (clean_json_string s)))
        · simp [h4]
        · simp [h4]
      · simp [h3]
    · simp [h2]
  · simp [h1]

/-- C10: `_extract_json` is total in the embedding — every repair pass is a
total string-to-string function and the whole extraction maps every input
string to either a parsed mapping or `None` (the `Option` result; no
exception escapes to the caller), with the repairs applied in the fixed
order raw → `clean_json_string` → non-printable strip → truncation rescue
and at most four parse attempts.  The guarded debug-dump write is a side
effect outside the pure embedding; in the source its `try/except` swallows
its own failure and it does not affect the returned value. -/
theorem C10_extract_json_total (text : String) :
    (extract_json_with_count text).2 ≤ 4 ∧
    (extract_json text = none ∨ ∃ j, extract_json text = some j) := by
  constructor
  · unfold extract_json_with_count
    by_cases hemp : text.isEmpty
    · simp [hemp]
    · rw [if_neg hemp]
      cases hf : firstIdx '{' text.data
      · simp
      · cases hl : lastIdx '}' text.data
        · simp
        · simp only []
          split
          · simp
          · exact extract_json_core_count_le _
  · rcases hx : extract_json text with _ | j
    · exact Or.inl rfl
    · exact Or.inr ⟨j, rfl⟩

/-- C6: any input with no `{`, or no `}`, or whose last `}` sits at or before
its first `{`, makes `_extract_json` return the well-defined failure `None`
(never a partial mapping), and makes `generate_script` raise the error that
names the debug-artifact file. -/
theorem C6_fails_closed (text today raw : String)
    (h : ('{' ∉ text.data) ∨ ('}' ∉ text.data) ∨
         (∀ i j, firstIdx '{' text.data = some i → lastIdx '}' text.data = some j → j ≤ i)) :
    extract_json text = none ∧
    (stripCodeFence (pyStrip raw) = text →
      generate_script_post today raw =
        .error "Could not extract valid JSON from Gemini response. Please check failed_response.txt to see what the AI produced.") := by
  have hmain : extract_json text = none := by
    unfold extract_json extract_json_with_count
    by_cases hemp : text.isEmpty
    · simp [hemp]
    · rw [if_neg hemp]
      rcases h with h | h | h
      · have hf := firstIdx_eq_none_of_not_mem h
        cases hl : lastIdx '}' text.data <;> simp [hf, hl]
      · have hl := lastIdx_eq_none_of_not_mem h
        cases hf : firstIdx '{' text.data <;> simp [hf, hl]
      · cases hf : firstIdx '{' text.data
        · cases hl : lastIdx '}' text.data <;> simp [hf, hl]
        · cases hl : lastIdx '}' text.data
          · simp [hf, hl]
          · simp [hf, hl, h _ _ hf hl]
  refine ⟨hmain, fun heq => ?_⟩
  simp only [generate_script_post, heq, hmain]

/-- C6 witness: the braceless input "no braces at all". -/
theorem C6_fails_closed_witness :
    extract_json "no braces at all" = none ∧
    generate_script_post "d" "no braces at all" =
      .error "Could not extract valid JSON from Gemini response. Please check failed_response.txt to see what the AI produced." := by
  have h := C6_fails_closed "no braces at all" "d" "no braces at all" (Or.inl (by decide))
  exact ⟨h.1, h.2 (by decide)⟩

/- ── Lemmas for the fallback loop ─────────────────────────────────────── -/

theorem runAttempts_rate_limited (gen : String → Nat → Except String String)
    (m : String) (le : Option String)
    (h : ∀ k, k < 3 → ∃ e, gen m k = .error e ∧ isRateLimitErr e = true) :
    ∃ e2, runAttempts gen m retryWaits le = (none, some e2, [5, 15, 30]) ∧
      gen m 2 = .error e2 := by
  obtain ⟨e0, h0, hr0⟩ := h 0 (by omega)
  obtain ⟨e1, h1, hr1⟩ := h 1 (by omega)
  obtain ⟨e2, h2, hr2⟩ := h 2 (by omega)
  refine ⟨e2, ?_, h2⟩
  simp [retryWaits, runAttempts, h0, hr0, h1, hr1, h2, hr2]

theorem runAttempts_non_rate_limited (gen : String → Nat → Except String String)
    (m : String) (le : Option String) (e : String)
    (h : gen m 0 = .error e) (hr : isRateLimitErr e = false) :
    runAttempts gen m retryWaits le = (none, some e, []) := by
  simp [retryWaits, runAttempts, h, hr]

theorem runAttempts_first_ok (gen : String → Nat → Except String String)
    (m : String) (le : Option String) (r : String) (h : gen m 0 = .ok r) :
    runAttempts gen m retryWaits le = (some r, le, []) := by
  simp [retryWaits, runAttempts, h]

/-- C4: in the script-generation stage's fallback loop, (1) a model that is
rate-limited on all three attempts is retried with the increasing backoff
5 s, 15 s, 30 s and then given up on, with `last_error` set to its final
error; (2) a non-rate-limit error ends that model's attempts at once with no
backoff; (3) with the configured model always rate-limited and the first
fallback model succeeding, the stage succeeds using the fallback model's
response after exactly the one backoff sequence; (4) when every model always
fails rate-limited, the loop raises the last error after sleeping the full
backoff sequence once per fallback model, and the raise makes the stage
fatal. -/
theorem C4_rate_limit_fallback :
    (∀ (gen : String → Nat → Except String String) (m : String) (le : Option String),
      (∀ k, k < 3 → ∃ e, gen m k = .error e ∧ isRateLimitErr e = true) →
      ∃ e2, runAttempts gen m retryWaits le = (none, some e2, [5, 15, 30]) ∧
        gen m 2 = .error e2) ∧
    (∀ (gen : String → Nat → Except String String) (m : String) (le : Option String) (e : String),
      gen m 0 = .error e → isRateLimitErr e = false →
      runAttempts gen m retryWaits le = (none, some e, [])) ∧
    (∀ (gen : String → Nat → Except String String) (r : String),
      (∀ k, k < 3 → ∃ e, gen "A" k = .error e ∧ isRateLimitErr e = true) →
      gen "gemini-2.5-flash" 0 = .ok r →
      generate_with_fallback gen "A" = (.ok ("gemini-2.5-flash", r), [5, 15, 30])) ∧
    (∀ (gen : String → Nat → Except String String) (eq : String),
      isRateLimitErr eq = true → (∀ m k, gen m k = .error eq) →
      generate_with_fallback gen "A" =
        (.error eq, [5, 15, 30, 5, 15, 30, 5, 15, 30, 5, 15, 30])) := by
  refine ⟨runAttempts_rate_limited, runAttempts_non_rate_limited, ?_, ?_⟩
  · intro gen r hA hB
    obtain ⟨e2, hAeq, _⟩ := runAttempts_rate_limited gen "A" none hA
    have hm : models_to_try "A" =
        ["A", "gemini-2.5-flash", "gemini-2.0-flash", "gemini-2.0-flash-lite"] := by decide
    have hBeq := runAttempts_first_ok gen "gemini-2.5-flash" (some e2) r hB
    simp [generate_with_fallback, hm, runModels, hAeq, hBeq]
  · intro gen eq hrl hall
    have hA : ∀ (m : String) (le : Option String),
        runAttempts gen m retryWaits le = (none, some eq, [5, 15, 30]) := by
      intro m le
      simp [retryWaits, runAttempts, hall m 0, hall m 1, hall m 2, hrl]
    have hm : models_to_try "A" =
        ["A", "gemini-2.5-flash", "gemini-2.0-flash", "gemini-2.0-flash-lite"] := by decide
    simp [generate_with_fallback, hm, runModels, hA]

/-- C4 witness: the four parts of `C4_rate_limit_fallback` instantiated at
concrete generator stubs. -/
theorem C4_rate_limit_fallback_witness :
    (∃ e2, runAttempts c4GenRateLimitedA "A" retryWaits none = (none, some e2, [5, 15, 30]) ∧
      c4GenRateLimitedA "A" 2 = .error e2) ∧
    runAttempts c4GenServerErr "A" retryWaits none = (none, some "500 internal server error", []) ∧
    generate_with_fallback c4GenRateLimitedA "A" = (.ok ("gemini-2.5-flash", "resp"), [5, 15, 30]) ∧
    generate_with_fallback c4GenAllRateLimited "A" =
      (.error "429 quota exceeded", [5, 15, 30, 5, 15, 30, 5, 15, 30, 5, 15, 30]) := by
  refine ⟨?_, ?_, ?_, ?_⟩
  · exact C4_rate_limit_fallback.1 c4GenRateLimitedA "A" none
      (fun k _ => ⟨"429 RESOURCE_EXHAUSTED", rfl, by decide⟩)
  · exact C4_rate_limit_fallback.2.1 c4GenServerErr "A" none "500 internal server error" rfl
      (by decide)
  · exact C4_rate_limit_fallback.2.2.1 c4GenRateLimitedA "resp"
      (fun k _ => ⟨"429 RESOURCE_EXHAUSTED", rfl, by decide⟩) rfl
  · exact C4_rate_limit_fallback.2.2.2 c4GenAllRateLimited "429 quota exceeded" (by decide)
      (fun _ _ => rfl)

/-- C3, counterexample: with the cross-post stage executing and its Telegram
post failing, the failure is *not* caught at the stage boundary — the run
aborts and finishes `failed`, not `Completed`.  Only the Shorts-upload call
inside step 7 sits in a `try/except`. -/
theorem C3_counterexample :
    (run_pipeline { stubOk with postTelegram := .error "Telegram API error" }
        { scriptDataFile := some (Json.obj [("title", Json.str "T")]) } false 7 8 "d").1 = false ∧
    (run_pipeline_bg { stubOk with postTelegram := .error "Telegram API error" }
        { scriptDataFile := some (Json.obj [("title", Json.str "T")]) } false 7 8 "d").1.status
      = "failed" := by
  refine ⟨by decide, by decide⟩

/-- C3, amended: in the cross-post stage only the Shorts-*upload* action is
caught at a try/except boundary.  When it fails, the failure is logged, the
stage's `short_status` stays at the degraded "✅ Created", the Telegram post
and the whole notify stage still execute, and the run finishes `completed`.
(A failure of `create_short_clip` or `post_to_telegram` in the same stage is
fatal instead — see the counterexample.) -/
theorem C3_amended (C : Collab) (disk : Disk) (today : String)
    (ms : List (String × Json)) (e : String)
    (hdisk : disk.scriptDataFile = some (.obj ms))
    (hdesc : ∃ s, (pyDictGet ms "description").getD (Json.str "") = Json.str s)
    (hclip : C.createShort = .ok ())
    (hshort : C.uploadShort = .error e)
    (htel : C.postTelegram = .ok ())
    (hnot : C.sendNotification = .ok ())
    (hsum : C.sendDailySummary = .ok ()) :
    ∃ st, run_pipeline C disk false 7 8 today = (true, st) ∧
      pyDictGet st.results "short_status" = some (.str "✅ Created") ∧
      pyDictGet st.results "telegram_status" = some (.str "✅ Posted") ∧
      Event.log ("Short upload failed: " ++ e) ∈ st.events ∧
      Event.telegram ∈ st.events ∧
      Event.dailySummary ∈ st.events ∧
      (run_pipeline_bg C disk false 7 8 today).1.status = "completed" := by
  obtain ⟨s, hs⟩ := hdesc
  have g1 : ¬((7:Nat) ≤ 1 ∧ (1:Nat) ≤ 8) := by decide
  have g2 : ¬((7:Nat) ≤ 2 ∧ (2:Nat) ≤ 8) := by decide
  have g3 : ¬((7:Nat) ≤ 3 ∧ (3:Nat) ≤ 8) := by decide
  have g4 : ¬((7:Nat) ≤ 4 ∧ (4:Nat) ≤ 8) := by decide
  have g5 : ¬((7:Nat) ≤ 5 ∧ (5:Nat) ≤ 8) := by decide
  have g6 : ¬((7:Nat) ≤ 6 ∧ (6:Nat) ≤ 8) := by decide
  have g7 : ((7:Nat) ≤ 7 ∧ (7:Nat) ≤ 8) := by decide
  have g8 : ((7:Nat) ≤ 8 ∧ (8:Nat) ≤ 8) := by decide
  simp [run_pipeline_bg, run_pipeline, runSteps, g1, g2, g3, g4, g5, g6, g7, g8,
    step1, step2, step3, step4, step5, step6, step7, step8, bind, Except.bind, pure,
    Except.pure, hdisk, hclip, hshort, htel, hnot, hsum, hs, jsonTruthy, pyGetAttr,
    push, setResult, pyDictSet]
  simp [pyDictGet]

/-- C3 witness: the amended behaviour at a concrete stub whose Shorts upload
fails with "403 forbidden". -/
theorem C3_amended_witness :
    ∃ st, run_pipeline { stubOk with uploadShort := .error "403 forbidden" }
        { scriptDataFile := some (Json.obj [("title", Json.str "T")]) } false 7 8 "d" = (true, st) ∧
      pyDictGet st.results "short_status" = some (.str "✅ Created") ∧
      pyDictGet st.results "telegram_status" = some (.str "✅ Posted") ∧
      Event.log ("Short upload failed: " ++ "403 forbidden") ∈ st.events ∧
      Event.telegram ∈ st.events ∧
      Event.dailySummary ∈ st.events ∧
      (run_pipeline_bg { stubOk with uploadShort := .error "403 forbidden" }
        { scriptDataFile := some (Json.obj [("title", Json.str "T")]) } false 7 8 "d").1.status
        = "completed" :=
  C3_amended _ _ "d" [("title", Json.str "T")] "403 forbidden" rfl ⟨"", by decide⟩
    rfl rfl rfl rfl rfl

/-- C9: (1) whenever `run_pipeline` reports failure, the orchestrator has
logged the human-readable "❌ Pipeline failed at: <error>" line — captured
into the run state's log exposed by the control surface — attempted the
best-effort "Pipeline Error" notification (whose result the handler discards,
so its own failure cannot escape), and the dashboard records status "failed";
(2) a fatal stage error stops all subsequent stages: with stage 2's
generative call failing, the only collaborator calls ever made are the fetch,
the generative call, and the failure-notification attempt — no voiceover,
video, thumbnail, upload, cross-post or notify stage runs — even when the
failure notification itself fails. -/
theorem C9_fatal_error_unwinds :
    (∀ (C : Collab) (disk : Disk) (dry : Bool) (s e : Nat) (today : String) (st : St),
      run_pipeline C disk dry s e today = (false, st) →
      Event.notify (.str "Pipeline Error") ∈ st.events ∧
      ∃ msg, Event.log ("\n❌ Pipeline failed at: " ++ msg) ∈ st.events ∧
        (run_pipeline_bg C disk dry s e today).1.status = "failed" ∧
        ("\n❌ Pipeline failed at: " ++ msg) ∈ (run_pipeline_bg C disk dry s e today).1.log) ∧
    (∀ (C : Collab) (disk : Disk) (today : String) (arts : List Json) (err en : String),
      C.fetchNews = .ok arts → C.genResponse = .error err → C.sendNotification = .error en →
      ∃ st, run_pipeline C disk false 1 8 today = (false, st) ∧
        collabCalls st.events = [Event.fetchNews, Event.genScript, Event.notify (.str "Pipeline Error")] ∧
        Event.log ("\n❌ Pipeline failed at: " ++ err) ∈ st.events ∧
        (run_pipeline_bg C disk false 1 8 today).1.status = "failed") := by
  constructor
  · intro C disk dry s e today st h
    rcases hr : runSteps C disk dry s e today with ⟨m, st0⟩ | st'
    · rw [run_pipeline, hr] at h
      simp only [Prod.mk.injEq, true_and] at h
      subst h
      refine ⟨by simp [push], m, by simp [push], ?_, ?_⟩
      · simp [run_pipeline_bg, run_pipeline, hr]
      · simp [run_pipeline_bg, run_pipeline, hr, eventLog, push]
    · rw [run_pipeline, hr] at h
      simp at h
  · intro C disk today arts err en hfetch hgen hnot
    simp [run_pipeline_bg, run_pipeline, runSteps, step1, step2, step3, step4, step5, step6,
      step7, step8, bind, Except.bind, pure, Except.pure, hfetch, hgen, hnot,
      push, setResult, collabCalls, eventLog]

/-- C9 witness: both parts instantiated at `c9Stub`. -/
theorem C9_fatal_error_unwinds_witness :
    (Event.notify (.str "Pipeline Error") ∈
        ((run_pipeline c9Stub {} false 1 8 "d").2).events ∧
      ∃ msg, Event.log ("\n❌ Pipeline failed at: " ++ msg) ∈
          ((run_pipeline c9Stub {} false 1 8 "d").2).events ∧
        (run_pipeline_bg c9Stub {} false 1 8 "d").1.status = "failed" ∧
        ("\n❌ Pipeline failed at: " ++ msg) ∈
          (run_pipeline_bg c9Stub {} false 1 8 "d").1.log) ∧
    (∃ st, run_pipeline c9Stub {} false 1 8 "d" = (false, st) ∧
      collabCalls st.events = [Event.fetchNews, Event.genScript, Event.notify (.str "Pipeline Error")] ∧
      Event.log ("\n❌ Pipeline failed at: " ++ "429 boom") ∈ st.events ∧
      (run_pipeline_bg c9Stub {} false 1 8 "d").1.status = "failed") := by
  constructor
  · exact C9_fatal_error_unwinds.1 _ {} false 1 8 "d" _ (by decide)
  · exact C9_fatal_error_unwinds.2 _ {} "d" [] "429 boom" "telegram down" rfl rfl rfl

/- ── Lemmas for the full-script invariant ─────────────────────────────── -/

theorem intercalate_go_append (sep : String) :
    ∀ (l : List String) (acc1 acc2 : String),
      String.intercalate.go (acc1 ++ acc2) sep l = acc1 ++ String.intercalate.go acc2 sep l := by
  intro l
  induction l with
  | nil => intro acc1 acc2; rfl
  | cons x xs ih =>
      intro acc1 acc2
      show String.intercalate.go (acc1 ++ acc2 ++ sep ++ x) sep xs =
        acc1 ++ String.intercalate.go (acc2 ++ sep ++ x) sep xs
      have e : acc1 ++ acc2 ++ sep ++ x = acc1 ++ (acc2 ++ sep ++ x) := by
        rw [String.append_assoc acc1 acc2 sep, String.append_assoc acc1 (acc2 ++ sep) x]
      rw [e, ih]

theorem intercalate_prepend (sep a b : String) (l : List String) :
    String.intercalate sep ((a ++ sep ++ b) :: l) = a ++ sep ++ String.intercalate sep (b :: l) := by
  show String.intercalate.go (a ++ sep ++ b) sep l = a ++ sep ++ String.intercalate.go b sep l
  exact intercalate_go_append sep l (a ++ sep) b

theorem intercalate_cons_cons (sep x y : String) (l : List String) :
    String.intercalate sep (x :: y :: l) = x ++ sep ++ String.intercalate sep (y :: l) := by
  show String.intercalate.go (x ++ sep ++ y) sep l = x ++ sep ++ String.intercalate.go y sep l
  exact intercalate_go_append sep l (x ++ sep) y

theorem intercalate_append_last (sep : String) :
    ∀ (l : List String) (x y : String),
      String.intercalate sep (x :: (l ++ [y])) =
        String.intercalate sep (x :: l) ++ sep ++ y := by
  intro l
  induction l with
  | nil => intro x y; exact intercalate_cons_cons sep x y []
  | cons z zs ih =>
      intro x y
      rw [List.cons_append, intercalate_cons_cons, ih, intercalate_cons_cons]
      simp [String.append_assoc]

theorem pyDictGet_set_same (ms : List (String × Json)) (k : String) (v : Json) :
    pyDictGet (pyDictSet ms k v) k = some v := by
  induction ms with
  | nil => simp [pyDictSet, pyDictGet]
  | cons kv rest ih =>
      obtain ⟨k', v'⟩ := kv
      by_cases h : k' = k <;> simp [pyDictSet, pyDictGet, h, ih]

theorem pyDictGet_set_other (ms : List (String × Json)) (k k2 : String) (v : Json)
    (h : k2 ≠ k) : pyDictGet (pyDictSet ms k v) k2 = pyDictGet ms k2 := by
  induction ms with
  | nil => simp [pyDictSet, pyDictGet, Ne.symm h]
  | cons kv rest ih =>
      obtain ⟨k', v'⟩ := kv
      by_cases h1 : k' = k
      · subst h1
        simp [pyDictSet, pyDictGet, Ne.symm h]
      · simp only [pyDictSet, h1, if_false]
        by_cases h2 : k' = k2 <;> simp [pyDictGet, h2, ih]

theorem pyDictSet_isEmpty_false (ms : List (String × Json)) (k : String) (v : Json) :
    (pyDictSet ms k v).isEmpty = false := by
  cases ms with
  | nil => simp [pyDictSet]
  | cons kv rest =>
      obtain ⟨k', v'⟩ := kv
      by_cases h : k' = k <;> simp [pyDictSet, h]

theorem pyIter_ok_pyLen (v : Json) (l : List Json) (h : pyIter v = .ok l) :
    ∃ n, pyLen v = .ok n := by
  cases v <;> simp [pyIter, pyLen] at h ⊢

theorem asPyStr_ok (v : Json) (s : String) (h : asPyStr v = .ok s) : v = .str s := by
  cases v <;> simp_all [asPyStr]

theorem strData_isEmpty_false (fs : String) (h : fs ≠ "") : fs.data.isEmpty = false := by
  obtain ⟨d⟩ := fs
  cases d with
  | nil => exact absurd rfl h
  | cons c cs => rfl

theorem appendStories_ok :
    ∀ (stories : List Json) (acc out : String),
      appendStories stories acc = .ok out →
      out = String.intercalate "\n\n" (acc :: stories.map fun st => specGetStr st "script") := by
  intro stories
  induction stories with
  | nil =>
      intro acc out h
      simp [appendStories] at h
      subst h
      rfl
  | cons st rest ih =>
      intro acc out h
      simp only [appendStories, bind, Except.bind] at h
      cases hsv : pyGetAttr st "script" (.str "") with
      | error e => simp [hsv] at h
      | ok sv =>
          simp only [hsv] at h
          cases hsvs : asPyStr sv with
          | error e => simp [hsvs] at h
          | ok s =>
              simp only [hsvs] at h
              have hrec := ih (acc ++ "\n\n" ++ s) out h
              have hspec : specGetStr st "script" = s := by
                cases sv with
                | str s2 =>
                    simp [asPyStr] at hsvs
                    simp [specGetStr, hsv, hsvs]
                | null => simp [asPyStr] at hsvs
                | bool b => simp [asPyStr] at hsvs
                | num n => simp [asPyStr] at hsvs
                | numLit q => simp [asPyStr] at hsvs
                | arr a => simp [asPyStr] at hsvs
                | obj o => simp [asPyStr] at hsvs
              rw [hrec, List.map_cons, hspec, intercalate_cons_cons]
              exact intercalate_prepend "\n\n" acc s _

theorem buildFullScriptE_eq (j : Json) (fs : String) (h : buildFullScriptE j = .ok fs) :
    fs = specFullScript j := by
  simp only [buildFullScriptE, bind, Except.bind] at h
  cases hintro : pyGetAttr j "intro_script" (.str "") with
  | error e => simp [hintro] at h
  | ok introV =>
    simp only [hintro] at h
    cases hintroS : asPyStr introV with
    | error e => simp [hintroS] at h
    | ok introS =>
      simp only [hintroS] at h
      cases hstoriesV : pyGetAttr j "stories" (.arr []) with
      | error e => simp [hstoriesV] at h
      | ok storiesV =>
        simp only [hstoriesV] at h
        cases hiter : pyIter storiesV with
        | error e => simp [hiter] at h
        | ok stories =>
          simp only [hiter] at h
          cases happ : appendStories stories introS with
          | error e => simp [happ] at h
          | ok acc =>
            simp only [happ] at h
            cases houtro : pyGetAttr j "outro_script" (.str "") with
            | error e => simp [houtro] at h
            | ok outroV =>
              simp only [houtro] at h
              cases houtroS : asPyStr outroV with
              | error e => simp [houtroS] at h
              | ok outroS =>
                simp only [houtroS, pure, Except.pure, Except.ok.injEq] at h
                have hacc := appendStories_ok stories introS acc happ
                have hintro2 : specGetStr j "intro_script" = introS := by
                  simp [specGetStr, hintro, asPyStr_ok introV introS hintroS]
                have houtro2 : specGetStr j "outro_script" = outroS := by
                  simp [specGetStr, houtro, asPyStr_ok outroV outroS houtroS]
                have hstories2 : specStories j = stories := by
                  simp [specStories, hstoriesV, hiter]
                rw [← h, hacc, specFullScript, specScriptTexts, hstories2, hintro2, houtro2]
                exact (intercalate_append_last "\n\n"
                  (List.map (fun st => specGetStr st "script") stories) introS outroS).symm

theorem buildFullScriptE_ok_stories (j : Json) (fs : String) (h : buildFullScriptE j = .ok fs) :
    ∃ storiesV stories, pyGetAttr j "stories" (.arr []) = .ok storiesV ∧
      pyIter storiesV = .ok stories := by
  simp only [buildFullScriptE, bind, Except.bind] at h
  cases hintro : pyGetAttr j "intro_script" (.str "") with
  | error e => simp [hintro] at h
  | ok introV =>
    simp only [hintro] at h
    cases hintroS : asPyStr introV with
    | error e => simp [hintroS] at h
    | ok introS =>
      simp only [hintroS] at h
      cases hstoriesV : pyGetAttr j "stories" (.arr []) with
      | error e => simp [hstoriesV] at h
      | ok storiesV =>
        simp only [hstoriesV] at h
        cases hiter : pyIter storiesV with
        | error e => simp [hiter] at h
        | ok stories => exact ⟨storiesV, stories, rfl, hiter⟩

theorem generate_script_post_full_script (today raw : String) (ms : List (String × Json))
    (fs : String)
    (hext : extract_json (stripCodeFence (pyStrip raw)) = some (.obj ms))
    (htr : jsonTruthy (.obj ms) = true)
    (hbuild : buildFullScriptE (.obj ms) = .ok fs) :
    generate_script_post today raw =
      .ok (pySetItem (pySetItem (.obj ms) "full_script" (.str fs)) "date" (.str today)) ∧
    pyGetAttr (pySetItem (pySetItem (.obj ms) "full_script" (.str fs)) "date" (.str today))
      "full_script" (.str "") = .ok (.str fs) := by
  constructor
  · simp [generate_script_post, hext, htr, hbuild, bind, Except.bind, pure, Except.pure]
  · simp only [pySetItem, pyGetAttr]
    rw [pyDictGet_set_other _ _ _ _ (by decide), pyDictGet_set_same]
    rfl

/-- C2: for a response whose extracted mapping is `ms` and whose full-script
build succeeds with `fs`, (1) `fs` is exactly intro, each story's script in
list order, and outro, joined by one blank line ("\n\n"); (2) the mapping
`generate_script` returns carries that very text under `full_script`
(readable back from the returned mapping); and (3) in a pipeline run of
stages 1-3, the text handed to speech synthesis is exactly that
`full_script`. -/
theorem C2_full_script_invariant (C : Collab) (disk : Disk) (dry : Bool)
    (today raw : String) (ms : List (String × Json)) (fs : String) (arts : List Json)
    (hext : extract_json (stripCodeFence (pyStrip raw)) = some (.obj ms))
    (htr : jsonTruthy (.obj ms) = true)
    (hbuild : buildFullScriptE (.obj ms) = .ok fs)
    (hfetch : C.fetchNews = .ok arts)
    (hraw : C.genResponse = .ok raw)
    (hfs : fs ≠ "")
    (hvoice : C.genVoice fs = .ok ()) :
    fs = specFullScript (.obj ms) ∧
    generate_script_post today raw =
      .ok (pySetItem (pySetItem (.obj ms) "full_script" (.str fs)) "date" (.str today)) ∧
    pyGetAttr (pySetItem (pySetItem (.obj ms) "full_script" (.str fs)) "date" (.str today))
      "full_script" (.str "") = .ok (.str fs) ∧
    ∃ st, run_pipeline C disk dry 1 3 today = (true, st) ∧ Event.voice fs ∈ st.events := by
  obtain ⟨hpost, hget⟩ := generate_script_post_full_script today raw ms fs hext htr hbuild
  refine ⟨buildFullScriptE_eq _ _ hbuild, hpost, hget, ?_⟩
  obtain ⟨sv, sl, hsv, hiter⟩ := buildFullScriptE_ok_stories _ _ hbuild
  obtain ⟨n, hlen⟩ := pyIter_ok_pyLen sv sl hiter
  have hsv2 : (pyDictGet ms "stories").getD (Json.arr []) = sv := by
    simpa [pyGetAttr] using hsv
  have hms2 : pyDictGet (pyDictSet (pyDictSet ms "full_script" (Json.str fs)) "date"
      (Json.str today)) "stories" = pyDictGet ms "stories" := by
    rw [pyDictGet_set_other _ _ _ _ (by decide), pyDictGet_set_other _ _ _ _ (by decide)]
  have hfsb : fs.data.isEmpty = false := strData_isEmpty_false fs hfs
  have hget2 : (pyDictGet (pyDictSet (pyDictSet ms "full_script" (Json.str fs)) "date"
      (Json.str today)) "full_script").getD (Json.str "") = Json.str fs := by
    rw [pyDictGet_set_other _ _ _ _ (by decide), pyDictGet_set_same]
    rfl
  have g1 : ((1:Nat) ≤ 1 ∧ (1:Nat) ≤ 3) := by decide
  have g2 : ((1:Nat) ≤ 2 ∧ (2:Nat) ≤ 3) := by decide
  have g3 : ((1:Nat) ≤ 3 ∧ (3:Nat) ≤ 3) := by decide
  have g4 : ¬((1:Nat) ≤ 4 ∧ (4:Nat) ≤ 3) := by decide
  have g5 : ¬((1:Nat) ≤ 5 ∧ (5:Nat) ≤ 3) := by decide
  have g6 : ¬((1:Nat) ≤ 6 ∧ (6:Nat) ≤ 3) := by decide
  have g7 : ¬((1:Nat) ≤ 7 ∧ (7:Nat) ≤ 3) := by decide
  have g8 : ¬((1:Nat) ≤ 8 ∧ (8:Nat) ≤ 3) := by decide
  simp [run_pipeline, runSteps, g1, g2, g3, g4, g5, g6, g7, g8,
    step1, step2, step3, bind, Except.bind, pure, Except.pure,
    hfetch, hraw, hpost, hget, hget2, hms2, hsv2, hlen, hiter, hfsb, hvoice,
    jsonTruthy, pyGetAttr, pySetItem, pyDictSet_isEmpty_false, push, setResult]

/-- C2 witness: `stubOk`'s response `{"stories":[]}` extracts to the mapping
with an empty story list, whose full script is the blank-line join of the
default empty intro and outro. -/
theorem C2_full_script_invariant_witness :
    "\n\n" = specFullScript (.obj [("stories", Json.arr [])]) ∧
    generate_script_post "d" "\x7b\"stories\":[]\x7d" =
      .ok (pySetItem (pySetItem (.obj [("stories", Json.arr [])]) "full_script"
        (.str "\n\n")) "date" (.str "d")) ∧
    pyGetAttr (pySetItem (pySetItem (.obj [("stories", Json.arr [])]) "full_script"
        (.str "\n\n")) "date" (.str "d")) "full_script" (.str "") = .ok (.str "\n\n") ∧
    ∃ st, run_pipeline stubOk {} false 1 3 "d" = (true, st) ∧
      Event.voice "\n\n" ∈ st.events :=
  C2_full_script_invariant stubOk {} false "d" "\x7b\"stories\":[]\x7d"
    [("stories", Json.arr [])] "\n\n" [] (by decide) (by decide) (by decide)
    rfl rfl (by decide) rfl
